import Mathlib

/-!
Shallow embedding of the Auto-Launcher core (src/auto_launcher.py):
the process probe `is_running`, the item launcher `launch_item`, the
sequencer `_threaded_launch`, the schedule-time parser
`_parse_time_to_seconds`, and the scheduler delay computation from
`schedule_selected`.  OS effects (process enumeration, process spawn,
URL open, wall-clock timestamps) are passed in as explicit oracles; the
side effects a call performs are recorded in an `Effect` trace.
-/

namespace AutoLauncher

/-- Decidable equality for `Except`, needed to evaluate launcher
results on concrete inputs. -/
instance instDecEqExcept {ε α : Type} [DecidableEq ε] [DecidableEq α] :
    DecidableEq (Except ε α) := fun a b =>
  match a, b with
  | .ok x, .ok y => if h : x = y then .isTrue (by rw [h]) else .isFalse (by simp [h])
  | .error x, .error y => if h : x = y then .isTrue (by rw [h]) else .isFalse (by simp [h])
  | .ok _, .error _ => .isFalse (by simp)
  | .error _, .ok _ => .isFalse (by simp)

/-- Lower-case an ASCII letter; other characters unchanged.  Models
Python `str.lower()` on the ASCII range used by the program. -/
def pyLowerChar (c : Char) : Char :=
  if 'A' ≤ c ∧ c ≤ 'Z' then Char.ofNat (c.toNat + 32) else c

/-- Models Python `str.lower()`. -/
def pyLower (s : String) : String := String.mk (s.toList.map pyLowerChar)

/-- Models Python `str.strip()`: drop whitespace from both ends. -/
def pyStrip (s : String) : String :=
  String.mk (((s.toList.dropWhile Char.isWhitespace).reverse.dropWhile
    Char.isWhitespace).reverse)

/-- Models Python `str.endswith(suffix)`. -/
def pyEndsWith (s suffix2 : String) : Bool :=
  let cs := s.toList
  let ss := suffix2.toList
  decide (cs.drop (cs.length - ss.length) = ss) && decide (ss.length ≤ cs.length)

/-- Models Python `str.split(":")`: cut the character list at every
colon; the empty string yields one empty component. -/
def splitOnColon : List Char → List (List Char)
  | [] => [[]]
  | c :: rest =>
    let r := splitOnColon rest
    if c = ':' then [] :: r
    else
      match r with
      | [] => [[c]]
      | h :: t => (c :: h) :: t

/-- Models Python `str()` applied to an optional string: `None` renders
as the literal text `None`, as in an f-string. -/
def pyShow : Option String → String
  | none => "None"
  | some s => s

/-- Models Python `dict.get(key, default)`: the stored value when the
key is present, otherwise the default. -/
def pyGetD (v d : Option String) : Option String :=
  match v with
  | some x => some x
  | none => d

/-- Models `os.path.basename`: the part of the path after the last path
separator (`/` or `\`). -/
def basename (s : String) : String :=
  String.mk ((s.toList.reverse.takeWhile (fun c => ¬(c = '/' ∨ c = '\\'))).reverse)

/-- A launch item as read from the JSON config: the `type`, `label` and
`target` keys, each possibly absent. -/
structure Item where
  type? : Option String
  label? : Option String
  target? : Option String
deriving DecidableEq, Repr

/-- One observation made while iterating `psutil.process_iter`:
either the process yields a name value (possibly `None`), or accessing
it raises `NoSuchProcess`/`AccessDenied` (the process vanished or is
inaccessible). -/
inductive ProcObs where
  | name (nm? : Option String)
  | vanished
deriving DecidableEq, Repr

/-- The outcome of process enumeration as a whole: either it yields a
list of per-process observations, or `psutil.process_iter` itself fails
with an exception. -/
inductive ProcEnum where
  | ok (procs : List ProcObs)
  | failed (msg : String)
deriving DecidableEq, Repr

/-- The loop-body test of `is_running`: `nm and nm.lower() == exe_name_lower`,
with the two anticipated exceptions skipped via `continue`. -/
def matchesName (exe : String) : ProcObs → Bool
  | .vanished => false
  | .name none => false
  | .name (some nm) => nm ≠ "" && pyLower nm == exe

/-- Embeds `is_running` (src/auto_launcher.py lines 84-93): scan the
enumerated processes, skipping vanished/inaccessible ones, returning
whether any surviving name matches case-insensitively; an error from the
enumeration itself is not caught and propagates. -/
def is_running (exe : String) : ProcEnum → Except String Bool
  | .ok procs => .ok (procs.any (matchesName exe))
  | .failed msg => .error msg

/-- The result of a `subprocess.Popen` attempt: success, the
`FileNotFoundError` the code catches, or some other exception. -/
inductive SpawnRes where
  | ok
  | notFound
  | otherErr (msg : String)
deriving DecidableEq, Repr

/-- A side effect performed by `launch_item`: opening a URL, querying
the process probe, or spawning a process. -/
inductive Effect where
  | urlOpen (target : String)
  | probe (exe : String)
  | spawn (target : String)
deriving DecidableEq, Repr

/-- The OS state a single `launch_item` call observes: the process
enumeration outcome, the result of spawning a given target, and the
result of handing a URL to `webbrowser.open`. -/
structure World where
  procs : ProcEnum
  spawnRes : String → SpawnRes
  urlRes : String → Except String Unit

/-- The `subprocess.Popen` part of the `app` branch of `launch_item`:
spawn the target and render the outcome message; `FileNotFoundError` is
caught, any other exception propagates. -/
def spawnPart (label target : String) (w : World) (pre : List Effect) :
    Except String String × List Effect :=
  match w.spawnRes target with
  | .ok => (.ok ("Launched app: " ++ label), pre ++ [.spawn target])
  | .notFound => (.ok ("Not found: " ++ label ++ " (" ++ target ++ ")"), pre ++ [.spawn target])
  | .otherErr e => (.error e, pre ++ [.spawn target])

/-- Embeds `launch_item` (src/auto_launcher.py lines 96-116).  Returns
the outcome message (or the uncaught exception) together with the trace
of side effects performed. -/
def launch_item (item : Item) (avoid_duplicates : Bool) (w : World) :
    Except String String × List Effect :=
  let itype := item.type?
  let label := pyShow (pyGetD item.label? itype)
  let target := pyShow item.target?
  if itype = some "url" then
    match w.urlRes target with
    | .error e => (.error e, [.urlOpen target])
    | .ok _ => (.ok ("Opened URL: " ++ label), [.urlOpen target])
  else if itype = some "app" then
    let exe_name := pyLower (basename target)
    if avoid_duplicates && pyEndsWith exe_name ".exe" then
      match is_running exe_name w.procs with
      | .error e => (.error e, [.probe exe_name])
      | .ok true => (.ok ("Already running: " ++ label), [.probe exe_name])
      | .ok false => spawnPart label target w [.probe exe_name]
    else
      spawnPart label target w []
  else
    (.ok ("Unknown item type: " ++ pyShow itype), [])

/-- Value of a nonempty all-digit character list, read in base 10;
`none` when empty or when any character is not a decimal digit. -/
def digitsVal? (cs : List Char) : Option Nat :=
  if cs = [] then none
  else
    cs.foldl
      (fun acc? c =>
        match acc? with
        | none => none
        | some a => if c.isDigit then some (a * 10 + (c.toNat - 48)) else none)
      (some 0)

/-- Models Python `int(s)` on an optionally signed decimal string:
surrounding whitespace is stripped, then an optional sign and a
nonempty run of digits; anything else raises (here `none`). -/
def pyInt? (s : String) : Option Int :=
  match (pyStrip s).toList with
  | '+' :: rest => (digitsVal? rest).map Int.ofNat
  | '-' :: rest => (digitsVal? rest).map (fun n => -(n : Int))
  | cs => (digitsVal? cs).map Int.ofNat

/-- Models `s.replace(" ", "")`: drop every space character. -/
def removeSpaces (s : String) : String :=
  String.mk (s.toList.filter (fun c => c ≠ ' '))

/-- The `am`/`pm` split of `_parse_time_to_seconds`: when the normalized
string ends in `am` or `pm`, peel the last two characters off as the
meridiem marker. -/
def splitAmPm (s : String) : Option String × String :=
  if pyEndsWith s "am" || pyEndsWith s "pm" then
    let cs := s.toList
    (some (String.mk (cs.drop (cs.length - 2))), String.mk (cs.take (cs.length - 2)))
  else
    (none, s)

/-- The normalization and component-extraction stage of
`_parse_time_to_seconds` (src/auto_launcher.py lines 494-505): strip,
lower-case and despace the input, peel a trailing `am`/`pm`, split on
`:` into exactly two integer components, and apply the 12-hour
adjustment.  Any failure (wrong number of components, non-integer part)
is the exception path of the source, here `none`. -/
def timeComponents (timestr : String) : Option (Int × Int) :=
  let s0 := removeSpaces (pyLower (pyStrip timestr))
  let p := splitAmPm s0
  match (splitOnColon (p.2).toList).map String.mk with
  | [hhs, mms] =>
    match pyInt? hhs, pyInt? mms with
    | some hh0, some mm =>
      let hh1 := if p.1 = some "pm" ∧ hh0 ≠ 12 then hh0 + 12 else hh0
      let hh2 := if p.1 = some "am" ∧ hh1 = 12 then 0 else hh1
      some (hh2, mm)
    | _, _ => none
  | _ => none

/-- Embeds `_parse_time_to_seconds` (src/auto_launcher.py lines
494-510): extract the hour and minute, range-check them, and convert to
seconds since midnight; any failure yields `none`. -/
def _parse_time_to_seconds (timestr : String) : Option Int :=
  match timeComponents timestr with
  | none => none
  | some (hh, mm) =>
    if 0 ≤ hh ∧ hh ≤ 23 ∧ 0 ≤ mm ∧ mm ≤ 59 then some (hh * 3600 + mm * 60)
    else none

/-- Embeds the delay computation of `schedule_selected`
(src/auto_launcher.py line 530): `(target - now_secs) % (24 * 3600)`,
with Python `%` semantics (`Int.emod`, nonnegative for a positive
modulus). -/
def schedule_delay (target now_secs : Int) : Int :=
  (target - now_secs) % (24 * 3600)

/-- Embeds `log_line` (src/auto_launcher.py lines 78-81): the persisted
log line appended for a message, a timestamp followed by the separator
and the text. -/
def log_line (ts text : String) : String := ts ++ " - " ++ text

/-- Models `self.cfg["profiles"].get(n, [])`: look a profile name up in
the profile table of the config, defaulting to the empty item list. -/
def profilesGet (profiles : List (String × List Item)) (n : String) : List Item :=
  match profiles.find? (fun p => p.1 = n) with
  | some p => p.2
  | none => []

/-- Mutable state threaded through `_threaded_launch`: the global item
counter (which world each `launch_item` call observes), the progress
bar value, the successive progress values observed, the status-area
lines, the texts passed to `log_line`, the per-item outcome messages in
order, and the pending exception if one escaped. -/
structure RunState where
  k : Nat
  value : Nat
  trace : List Nat
  status : List String
  logTexts : List String
  itemMsgs : List String
  error? : Option String
deriving DecidableEq, Repr

/-- The inner item loop of `_threaded_launch` (src/auto_launcher.py
lines 434-439): launch each item in order, append its message to the
status area, increment progress; an exception aborts the loop. -/
def stepItems (avoid : Bool) (worlds : Nat → World) :
    List Item → RunState → RunState
  | [], st => st
  | item :: rest, st =>
    match (launch_item item avoid (worlds st.k)).1 with
    | .error e => { st with error? := some e }
    | .ok msg =>
      stepItems avoid worlds rest
        { st with
          k := st.k + 1
          value := st.value + 1
          trace := st.trace ++ [st.value + 1]
          status := st.status ++ ["  - " ++ msg]
          itemMsgs := st.itemMsgs ++ [msg] }

/-- The outer profile loop of `_threaded_launch` (src/auto_launcher.py
lines 430-439): for each named profile, announce it in the status area,
append one persisted log text, then run the item loop; an exception
aborts the remaining profiles. -/
def stepProfiles (profiles : List (String × List Item)) (avoid : Bool)
    (worlds : Nat → World) : List String → RunState → RunState
  | [], st => st
  | name :: rest, st =>
    if st.error?.isSome then st
    else
      let items := profilesGet profiles name
      let st1 :=
        { st with
          status := st.status ++ ["Launching: " ++ name]
          logTexts := st.logTexts ++ ["Launching profile: " ++ name] }
      stepProfiles profiles avoid worlds rest (stepItems avoid worlds items st1)

/-- The total item count `sum(len(self.cfg["profiles"].get(n, [])) for n
in profile_names)` from src/auto_launcher.py line 426. -/
def totalItems (profiles : List (String × List Item)) (names : List String) : Nat :=
  (names.map (fun n => (profilesGet profiles n).length)).sum

/-- All items a run processes, in run order: the item lists of the
named profiles, concatenated. -/
def allItems (profiles : List (String × List Item)) (names : List String) : List Item :=
  (names.map (profilesGet profiles)).flatten

/-- Renders the persisted log: the i-th appended text becomes a
`log_line` with the timestamp of the i-th `log_line` call. -/
def renderLog (tsOracle : Nat → String) (texts : List String) : List String :=
  texts.enum.map (fun p => log_line (tsOracle p.1) p.2)

/-- Observable outcome of one `_threaded_launch` run. -/
structure RunTrace where
  progressMax : Nat
  progressTrace : List Nat
  statusLines : List String
  logLines : List String
  itemMsgs : List String
  error? : Option String
deriving DecidableEq, Repr

/-- Embeds `_threaded_launch` (src/auto_launcher.py lines 424-442):
compute the progress maximum (`total or 1`), reset progress to 0, run
the profile loop, and append the final `Done.` status line when no
exception escaped (an exception instead becomes the error dialog). -/
def _threaded_launch (profiles : List (String × List Item)) (names : List String)
    (avoid : Bool) (worlds : Nat → World) (tsOracle : Nat → String) : RunTrace :=
  let total := totalItems profiles names
  let maxv := if total = 0 then 1 else total
  let st0 : RunState := ⟨0, 0, [0], [], [], [], none⟩
  let st := stepProfiles profiles avoid worlds names st0
  let st2 :=
    if st.error?.isNone then { st with status := st.status ++ ["Done."] } else st
  { progressMax := maxv
    progressTrace := st2.trace
    statusLines := st2.status
    logLines := renderLog tsOracle st2.logTexts
    itemMsgs := st2.itemMsgs
    error? := st2.error? }

/-- Whether an `Except` result is a success. -/
def exceptIsOk {ε α : Type} : Except ε α → Bool
  | .ok _ => true
  | .error _ => false

/-- The consecutive progress values `v+1, v+2, ..., v+n` appended while
launching `n` items starting from progress value `v`. -/
def upFrom (v : Nat) : Nat → List Nat
  | 0 => []
  | n + 1 => (v + 1) :: upFrom (v + 1) n

/-- Every `launch_item` call of a run succeeds (no uncaught exception),
where the call for the i-th item observes world `worlds (k + i)`. -/
def allOk (avoid : Bool) (worlds : Nat → World) : Nat → List Item → Bool
  | _, [] => true
  | k, item :: rest =>
    exceptIsOk (launch_item item avoid (worlds k)).1 && allOk avoid worlds (k + 1) rest

/-- The outcome messages the Item Launcher returns for a list of items,
one per item, in input order (for runs where every call succeeds). -/
def okMsgs (avoid : Bool) (worlds : Nat → World) : Nat → List Item → List String
  | _, [] => []
  | k, item :: rest =>
    (match (launch_item item avoid (worlds k)).1 with
     | .ok m => m
     | .error e => e) :: okMsgs avoid worlds (k + 1) rest

/-- The status-area lines a completed run produces for a list of
profiles: per profile a `Launching:` line followed by one indented
outcome line per item. -/
def statusOf (profiles : List (String × List Item)) (avoid : Bool)
    (worlds : Nat → World) : Nat → List String → List String
  | _, [] => []
  | k, n :: rest =>
    let items := profilesGet profiles n
    ("Launching: " ++ n) ::
      ((okMsgs avoid worlds k items).map (fun m => "  - " ++ m) ++
        statusOf profiles avoid worlds (k + items.length) rest)

/-- Constant timestamp oracle used for concrete runs. -/
def cxTs : Nat → String := fun _ => "2025-01-01 00:00:00"

/-- A world where every OS action succeeds and no process is running. -/
def okWorld : World :=
  ⟨ProcEnum.ok [], fun _ => SpawnRes.ok, fun _ => Except.ok ()⟩

/-- A world where spawning raises `FileNotFoundError`. -/
def nfWorld : World :=
  ⟨ProcEnum.ok [], fun _ => SpawnRes.notFound, fun _ => Except.ok ()⟩

/-- Concrete URL item. -/
def itemA : Item := ⟨some "url", some "A", some "http://a.example"⟩

/-- Concrete URL item. -/
def itemB : Item := ⟨some "url", some "B", some "http://b.example"⟩

/-- A one-profile config with two URL items. -/
def cxProfiles : List (String × List Item) := [("P", [itemA, itemB])]

/-- Concrete app item whose executable name ends in `.exe`. -/
def toolItem : Item := ⟨some "app", some "Tool", some "C:\\Tools\\tool.exe"⟩

/-- A world whose process list contains `TOOL.EXE` (upper-case, to
exercise the case-insensitive probe). -/
def toolWorld : World :=
  ⟨ProcEnum.ok [ProcObs.name (some "TOOL.EXE")], fun _ => SpawnRes.ok, fun _ => Except.ok ()⟩

/-- Concrete app item whose target does not exist. -/
def goneItem : Item := ⟨some "app", some "Gone", some "C:\\missing\\gone.exe"⟩

/-- Concrete app item whose target does not end in `.exe`. -/
def batItem : Item := ⟨some "app", some "Script", some "C:\\Tools\\run.bat"⟩

/-- A world whose process list contains `run.bat` itself. -/
def batWorld : World :=
  ⟨ProcEnum.ok [ProcObs.name (some "run.bat")], fun _ => SpawnRes.ok, fun _ => Except.ok ()⟩

/-- Concrete item of unrecognized type. -/
def docItem : Item := ⟨some "doc", some "Notes", some "C:\\notes.txt"⟩

theorem upFrom_append (m n : Nat) : ∀ v, upFrom v (m + n) = upFrom v m ++ upFrom (v + m) n := by
  induction m with
  | zero => intro v; simp [upFrom]
  | succ m ih =>
    intro v
    have h1 : m + 1 + n = (m + n) + 1 := by omega
    have h2 : v + 1 + m = v + (m + 1) := by omega
    rw [h1]
    simp only [upFrom, ih (v + 1), h2, List.cons_append]

theorem zero_cons_upFrom : ∀ n : Nat, (0 : Nat) :: upFrom 0 n = List.range (n + 1) := by
  intro n
  induction n with
  | zero => simp [upFrom, List.range_succ]
  | succ n ih =>
    have h1 : n + 1 = n + 1 := rfl
    have h2 : upFrom 0 (n + 1) = upFrom 0 n ++ [n + 1] := by
      rw [upFrom_append n 1 0]
      simp [upFrom]
    rw [h2, List.range_succ, ← ih]
    simp

theorem okMsgs_length (avoid : Bool) (worlds : Nat → World) :
    ∀ (items : List Item) (k : Nat), (okMsgs avoid worlds k items).length = items.length := by
  intro items
  induction items with
  | nil => intro k; simp [okMsgs]
  | cons item rest ih => intro k; simp [okMsgs, ih]

theorem allOk_append (avoid : Bool) (worlds : Nat → World) :
    ∀ (xs ys : List Item) (k : Nat),
      allOk avoid worlds k (xs ++ ys) =
        (allOk avoid worlds k xs && allOk avoid worlds (k + xs.length) ys) := by
  intro xs
  induction xs with
  | nil => intro ys k; simp [allOk]
  | cons x rest ih =>
    intro ys k
    have h : k + 1 + rest.length = k + (rest.length + 1) := by omega
    simp only [List.cons_append, allOk, List.append_eq, ih ys (k + 1), h, List.length_cons,
      Bool.and_assoc]

theorem okMsgs_append (avoid : Bool) (worlds : Nat → World) :
    ∀ (xs ys : List Item) (k : Nat),
      okMsgs avoid worlds k (xs ++ ys) =
        okMsgs avoid worlds k xs ++ okMsgs avoid worlds (k + xs.length) ys := by
  intro xs
  induction xs with
  | nil => intro ys k; simp [okMsgs]
  | cons x rest ih =>
    intro ys k
    have h : k + 1 + rest.length = k + (rest.length + 1) := by omega
    simp only [List.cons_append, okMsgs, List.append_eq, ih ys (k + 1), h, List.length_cons]

theorem allItems_length (profiles : List (String × List Item)) (names : List String) :
    (allItems profiles names).length = totalItems profiles names := by
  induction names with
  | nil => simp [allItems, totalItems]
  | cons n rest ih =>
    simp only [allItems, totalItems, List.map_cons, List.flatten_cons, List.length_append,
      List.sum_cons] at ih ⊢
    rw [ih]

theorem stepItems_eq (avoid : Bool) (worlds : Nat → World) :
    ∀ (items : List Item) (st : RunState),
      allOk avoid worlds st.k items = true →
      stepItems avoid worlds items st =
        { k := st.k + items.length
          value := st.value + items.length
          trace := st.trace ++ upFrom st.value items.length
          status := st.status ++ (okMsgs avoid worlds st.k items).map (fun m => "  - " ++ m)
          logTexts := st.logTexts
          itemMsgs := st.itemMsgs ++ okMsgs avoid worlds st.k items
          error? := st.error? } := by
  intro items
  induction items with
  | nil =>
    intro st _
    simp [stepItems, upFrom, okMsgs]
  | cons item rest ih =>
    intro st h
    simp only [allOk, Bool.and_eq_true] at h
    obtain ⟨h1, h2⟩ := h
    cases hres : (launch_item item avoid (worlds st.k)).1 with
    | error e =>
      rw [hres] at h1
      simp [exceptIsOk] at h1
    | ok m =>
      simp only [stepItems, hres]
      rw [ih _ h2]
      simp only [okMsgs, hres, List.length_cons]
      congr 1
      · omega
      · omega
      · simp [upFrom, List.append_assoc]
      · simp [List.append_assoc]
      · simp [List.append_assoc]

theorem stepProfiles_eq (profiles : List (String × List Item)) (avoid : Bool)
    (worlds : Nat → World) :
    ∀ (names : List String) (st : RunState),
      st.error? = none →
      allOk avoid worlds st.k (allItems profiles names) = true →
      stepProfiles profiles avoid worlds names st =
        { k := st.k + totalItems profiles names
          value := st.value + totalItems profiles names
          trace := st.trace ++ upFrom st.value (totalItems profiles names)
          status := st.status ++ statusOf profiles avoid worlds st.k names
          logTexts := st.logTexts ++ names.map (fun n => "Launching profile: " ++ n)
          itemMsgs := st.itemMsgs ++ okMsgs avoid worlds st.k (allItems profiles names)
          error? := none } := by
  intro names
  induction names with
  | nil =>
    intro st he _
    obtain ⟨k, v, tr, ss, lt, im, e⟩ := st
    replace he : e = none := he
    subst he
    simp [stepProfiles, allItems, totalItems, statusOf, okMsgs, upFrom]
  | cons name rest ih =>
    intro st he h
    obtain ⟨k, v, tr, ss, lt, im, e⟩ := st
    replace he : e = none := he
    subst he
    have hsplitItems : allItems profiles (name :: rest) =
        profilesGet profiles name ++ allItems profiles rest := by
      simp [allItems]
    replace h : allOk avoid worlds k (allItems profiles (name :: rest)) = true := h
    rw [hsplitItems, allOk_append avoid worlds] at h
    simp only [Bool.and_eq_true] at h
    obtain ⟨h1, h2⟩ := h
    have hstep := stepItems_eq avoid worlds (profilesGet profiles name)
      ⟨k, v, tr, ss ++ ["Launching: " ++ name],
        lt ++ ["Launching profile: " ++ name], im, none⟩ h1
    simp only [stepProfiles, Option.isSome_none, Bool.false_eq_true, if_false]
    rw [hstep]
    rw [ih _ rfl h2]
    simp only [hsplitItems, totalItems, List.map_cons, List.sum_cons, statusOf]
    congr 1
    · omega
    · omega
    · rw [upFrom_append]
      simp [List.append_assoc]
    · simp [List.append_assoc]
    · simp [List.append_assoc]
    · rw [okMsgs_append avoid worlds]
      simp [List.append_assoc]

/-- Claim C3: for an item of type `app` with duplicate avoidance on,
whose lower-cased base filename ends in the executable suffix `.exe`,
and with the process probe reporting that exact lower-cased name
running, `launch_item` returns `Already running: <label>` and performs
no process spawn: its only side effect is the probe query. -/
theorem launch_app_already_running (item : Item) (w : World)
    (ht : item.type? = some "app")
    (he : pyEndsWith (pyLower (basename (pyShow item.target?))) ".exe" = true)
    (hr : is_running (pyLower (basename (pyShow item.target?))) w.procs = .ok true) :
    launch_item item true w =
      (.ok ("Already running: " ++ pyShow (pyGetD item.label? item.type?)),
        [Effect.probe (pyLower (basename (pyShow item.target?)))]) := by
  simp [launch_item, ht, he, hr]

/-- Witness for C3: a concrete `.exe` item whose process is listed as
running (in a different letter case) is reported already running and
the trace holds only the probe query. -/
theorem launch_app_already_running_witness :
    toolItem.type? = some "app" ∧
    pyEndsWith (pyLower (basename (pyShow toolItem.target?))) ".exe" = true ∧
    is_running (pyLower (basename (pyShow toolItem.target?))) toolWorld.procs = .ok true ∧
    launch_item toolItem true toolWorld =
      (.ok ("Already running: " ++ pyShow (pyGetD toolItem.label? toolItem.type?)),
        [Effect.probe (pyLower (basename (pyShow toolItem.target?)))]) :=
  ⟨rfl, by decide, by decide,
    launch_app_already_running toolItem toolWorld rfl (by decide) (by decide)⟩

/-- Claim C7: for an item of type `app` that reaches the spawn (the
duplicate guard does not short-circuit), a `FileNotFoundError` from the
spawn is caught and reported as `Not found: <label> (<target>)`, and a
successful spawn is reported as `Launched app: <label>`. -/
theorem launch_app_spawn_outcomes (item : Item) (avoid : Bool) (w : World)
    (ht : item.type? = some "app")
    (hg : (avoid && pyEndsWith (pyLower (basename (pyShow item.target?))) ".exe") = false ∨
      is_running (pyLower (basename (pyShow item.target?))) w.procs = .ok false) :
    (w.spawnRes (pyShow item.target?) = SpawnRes.notFound →
      (launch_item item avoid w).1 =
        .ok ("Not found: " ++ pyShow (pyGetD item.label? item.type?) ++ " (" ++
          pyShow item.target? ++ ")")) ∧
    (w.spawnRes (pyShow item.target?) = SpawnRes.ok →
      (launch_item item avoid w).1 =
        .ok ("Launched app: " ++ pyShow (pyGetD item.label? item.type?))) := by
  have hfst : (launch_item item avoid w).1 =
      (spawnPart (pyShow (pyGetD item.label? item.type?)) (pyShow item.target?) w []).1 := by
    by_cases hc : (avoid && pyEndsWith (pyLower (basename (pyShow item.target?))) ".exe") = true
    · rcases hg with hg | hg
      · rw [hc] at hg
        exact absurd hg (by simp)
      · cases hsr : w.spawnRes (pyShow item.target?) <;>
          simp [launch_item, ht, hc, hg, spawnPart, hsr]
    · simp only [Bool.not_eq_true] at hc
      simp [launch_item, ht, hc]
  constructor <;> intro hs <;> rw [hfst] <;> simp [spawnPart, hs]

/-- Witness for C7: a concrete `.exe` item whose target is missing, in
a world with no matching process, is reported as not found. -/
theorem launch_app_spawn_outcomes_witness :
    goneItem.type? = some "app" ∧
    is_running (pyLower (basename (pyShow goneItem.target?))) nfWorld.procs = .ok false ∧
    nfWorld.spawnRes (pyShow goneItem.target?) = SpawnRes.notFound ∧
    (launch_item goneItem true nfWorld).1 =
      .ok ("Not found: " ++ pyShow (pyGetD goneItem.label? goneItem.type?) ++ " (" ++
        pyShow goneItem.target? ++ ")") :=
  ⟨rfl, by decide, rfl,
    (launch_app_spawn_outcomes goneItem true nfWorld rfl (Or.inr (by decide))).1 rfl⟩

/-- Claim C8: for an item of type `url`, `launch_item` performs exactly
one URL-open and never spawns a process; when the handler succeeds the
message is `Opened URL: <label>`, and an exception from the handler is
not caught and propagates. -/
theorem launch_url_spec (item : Item) (avoid : Bool) (w : World)
    (ht : item.type? = some "url") :
    (launch_item item avoid w).2 = [Effect.urlOpen (pyShow item.target?)] ∧
    (w.urlRes (pyShow item.target?) = .ok () →
      (launch_item item avoid w).1 =
        .ok ("Opened URL: " ++ pyShow (pyGetD item.label? item.type?))) ∧
    (∀ e, w.urlRes (pyShow item.target?) = .error e →
      (launch_item item avoid w).1 = .error e) := by
  refine ⟨?_, ?_, ?_⟩
  · cases hu : w.urlRes (pyShow item.target?) <;> simp [launch_item, ht, hu]
  · intro hu
    simp [launch_item, ht, hu]
  · intro e hu
    simp [launch_item, ht, hu]

/-- Witness for C8: a concrete URL item opens its target, spawns
nothing, and reports the label in its message. -/
theorem launch_url_spec_witness :
    itemA.type? = some "url" ∧
    (launch_item itemA true okWorld).2 = [Effect.urlOpen (pyShow itemA.target?)] ∧
    (launch_item itemA true okWorld).1 =
      .ok ("Opened URL: " ++ pyShow (pyGetD itemA.label? itemA.type?)) :=
  ⟨rfl, (launch_url_spec itemA true okWorld rfl).1,
    (launch_url_spec itemA true okWorld rfl).2.1 rfl⟩

/-- Claim C9: for an item whose type is neither `url` nor `app`
(including a missing type), `launch_item` returns
`Unknown item type: <type>` and performs no side effect at all. -/
theorem launch_unknown_type (item : Item) (avoid : Bool) (w : World)
    (h1 : item.type? ≠ some "url") (h2 : item.type? ≠ some "app") :
    launch_item item avoid w = (.ok ("Unknown item type: " ++ pyShow item.type?), []) := by
  simp [launch_item, h1, h2]

/-- Witness for C9: a concrete `doc` item is reported unknown with an
empty effect trace. -/
theorem launch_unknown_type_witness :
    docItem.type? ≠ some "url" ∧ docItem.type? ≠ some "app" ∧
    launch_item docItem true okWorld =
      (.ok ("Unknown item type: " ++ pyShow docItem.type?), []) :=
  ⟨by decide, by decide, launch_unknown_type docItem true okWorld (by decide) (by decide)⟩

/-- Claim C10: duplicate suppression applies only to targets whose
lower-cased base filename ends in the literal suffix `.exe`: for an
`app` item without that suffix, even with `avoid_duplicates` true and
in any world (including one where a process of the same name runs), the
probe is never consulted and the spawn is always attempted — the trace
is exactly the spawn. -/
theorem launch_app_no_exe_suffix (item : Item) (w : World)
    (ht : item.type? = some "app")
    (he : pyEndsWith (pyLower (basename (pyShow item.target?))) ".exe" = false) :
    (launch_item item true w).2 = [Effect.spawn (pyShow item.target?)] := by
  cases hsr : w.spawnRes (pyShow item.target?) <;>
    simp [launch_item, ht, he, spawnPart, hsr]

/-- Witness for C10: a concrete `.bat` item is spawned even though a
process named `run.bat` is running and duplicate avoidance is on. -/
theorem launch_app_no_exe_suffix_witness :
    batItem.type? = some "app" ∧
    pyEndsWith (pyLower (basename (pyShow batItem.target?))) ".exe" = false ∧
    is_running (pyLower (basename (pyShow batItem.target?))) batWorld.procs = .ok true ∧
    (launch_item batItem true batWorld).2 = [Effect.spawn (pyShow batItem.target?)] :=
  ⟨rfl, by decide, by decide, launch_app_no_exe_suffix batItem batWorld rfl (by decide)⟩

/-- Claim C2 (amended): `is_running` skips processes that vanish or are
inaccessible during enumeration, skips processes with no name, and
skips surviving processes whose name does not match case-insensitively;
when enumeration yields a process list it always returns a boolean —
false when no surviving process matches the argument (all entries fail
the loop-body test), true in particular when a listed process name
lower-cases to the argument; but when process enumeration itself is
entirely unavailable the exception propagates to the caller instead of
degrading to false. -/
theorem is_running_amended_spec :
    (∀ exe, is_running exe (ProcEnum.ok []) = .ok false) ∧
    (∀ exe rest, is_running exe (ProcEnum.ok (ProcObs.vanished :: rest)) =
      is_running exe (ProcEnum.ok rest)) ∧
    (∀ exe rest, is_running exe (ProcEnum.ok (ProcObs.name none :: rest)) =
      is_running exe (ProcEnum.ok rest)) ∧
    (∀ exe nm rest, (nm = "" ∨ pyLower nm ≠ exe) →
      is_running exe (ProcEnum.ok (ProcObs.name (some nm) :: rest)) =
        is_running exe (ProcEnum.ok rest)) ∧
    (∀ exe procs, (∀ p ∈ procs, matchesName exe p = false) →
      is_running exe (ProcEnum.ok procs) = .ok false) ∧
    (∀ exe procs, ∃ b : Bool, is_running exe (ProcEnum.ok procs) = .ok b) ∧
    (∀ exe nm rest, nm ≠ "" → pyLower nm = exe →
      is_running exe (ProcEnum.ok (ProcObs.name (some nm) :: rest)) = .ok true) ∧
    (∀ exe msg, is_running exe (ProcEnum.failed msg) = .error msg) := by
  refine ⟨fun exe => rfl, ?_, ?_, ?_, ?_, fun exe procs => ⟨_, rfl⟩, ?_, fun exe msg => rfl⟩
  · intro exe rest
    simp [is_running, matchesName]
  · intro exe rest
    simp [is_running, matchesName]
  · intro exe nm rest h
    have hm : matchesName exe (ProcObs.name (some nm)) = false := by
      rcases h with h | h
      · simp [matchesName, h]
      · simp [matchesName, h]
    simp [is_running, hm]
  · intro exe procs h
    have hall : procs.any (matchesName exe) = false := by
      rw [List.any_eq_false]
      intro p hp
      simp [h p hp]
    simp [is_running, hall]
  · intro exe nm rest hne hl
    simp [is_running, matchesName, hne, hl]

/-- Witness for C2 (amended): the probe reports the upper-case process
name `TOOL.EXE` as a running `tool.exe`, and a surviving non-matching
process `other.exe` is skipped. -/
theorem is_running_amended_spec_witness :
    ("TOOL.EXE" : String) ≠ "" ∧ pyLower "TOOL.EXE" = "tool.exe" ∧
    is_running "tool.exe" (ProcEnum.ok [ProcObs.name (some "TOOL.EXE")]) = .ok true ∧
    (("other.exe" : String) = "" ∨ pyLower "other.exe" ≠ "tool.exe") ∧
    is_running "tool.exe" (ProcEnum.ok [ProcObs.name (some "other.exe")]) =
      is_running "tool.exe" (ProcEnum.ok []) :=
  ⟨by decide, by decide,
    is_running_amended_spec.2.2.2.2.2.2.1 "tool.exe" "TOOL.EXE" [] (by decide) (by decide),
    Or.inr (by decide),
    is_running_amended_spec.2.2.2.1 "tool.exe" "other.exe" [] (Or.inr (by decide))⟩

/-- Counterexample to C2 as stated: when process enumeration is
entirely unavailable, `is_running` propagates the error rather than
returning false. -/
theorem is_running_unavailable_raises :
    is_running "x.exe" (ProcEnum.failed "process enumeration unavailable") =
      .error "process enumeration unavailable" ∧
    is_running "x.exe" (ProcEnum.failed "process enumeration unavailable") ≠
      (.ok false : Except String Bool) :=
  ⟨rfl, by decide⟩

/-- Claim C5: the schedule-time parser accepts `08:30`, `8:30am`,
`8:30PM` and `20:30` with the corresponding seconds since midnight,
rejects `25:00`, `8:70am`, `abc` and the empty string, and in general
fails exactly outside normalized hour range [0,23] and minute range
[0,59] or when the string does not split into an hour and a minute
component (`timeComponents` returning `none`). -/
theorem parse_time_spec :
    _parse_time_to_seconds "08:30" = some 30600 ∧
    _parse_time_to_seconds "8:30am" = some 30600 ∧
    _parse_time_to_seconds "8:30PM" = some 73800 ∧
    _parse_time_to_seconds "20:30" = some 73800 ∧
    _parse_time_to_seconds "25:00" = none ∧
    _parse_time_to_seconds "8:70am" = none ∧
    _parse_time_to_seconds "abc" = none ∧
    _parse_time_to_seconds "" = none ∧
    (∀ s, timeComponents s = none → _parse_time_to_seconds s = none) ∧
    (∀ s hh mm, timeComponents s = some (hh, mm) →
      (hh < 0 ∨ 23 < hh ∨ mm < 0 ∨ 59 < mm) → _parse_time_to_seconds s = none) ∧
    (∀ s hh mm, timeComponents s = some (hh, mm) →
      0 ≤ hh → hh ≤ 23 → 0 ≤ mm → mm ≤ 59 →
      _parse_time_to_seconds s = some (hh * 3600 + mm * 60)) := by
  refine ⟨by decide, by decide, by decide, by decide, by decide, by decide, by decide,
    by decide, ?_, ?_, ?_⟩
  · intro s h
    simp [_parse_time_to_seconds, h]
  · intro s hh mm h hout
    simp only [_parse_time_to_seconds, h]
    rw [if_neg (by omega)]
  · intro s hh mm h h1 h2 h3 h4
    simp only [_parse_time_to_seconds, h]
    rw [if_pos ⟨h1, h2, h3, h4⟩]

/-- Witness for C5: the out-of-range-hour conjunct applied to `25:00`,
whose components parse as hour 25 and minute 0. -/
theorem parse_time_spec_witness :
    timeComponents "25:00" = some (25, 0) ∧
    ((25 : Int) < 0 ∨ (23 : Int) < 25 ∨ (0 : Int) < 0 ∨ (59 : Int) < 0) ∧
    _parse_time_to_seconds "25:00" = none :=
  ⟨by decide, Or.inr (Or.inl (by decide)),
    parse_time_spec.2.2.2.2.2.2.2.2.2.1 "25:00" 25 0 (by decide)
      (Or.inr (Or.inl (by decide)))⟩

/-- Claim C6: the scheduler delay is
`(target_seconds - now_seconds) mod 86400`, always in [0, 86400), with
0 meaning fire immediately (a same-time target yields 0, not 24 hours);
in particular target `10:00` at 10:00:00 yields 0 and target `00:10` at
23:50:00 yields 1200 seconds. -/
theorem schedule_delay_formula_spec :
    (∀ t n : Int, schedule_delay t n = (t - n) % 86400) ∧
    (∀ t n : Int, 0 ≤ schedule_delay t n ∧ schedule_delay t n < 86400) ∧
    (∀ t : Int, schedule_delay t t = 0) ∧
    (_parse_time_to_seconds "10:00" = some 36000 ∧
      schedule_delay 36000 (10 * 3600 + 0 * 60 + 0) = 0) ∧
    (_parse_time_to_seconds "00:10" = some 600 ∧
      schedule_delay 600 (23 * 3600 + 50 * 60 + 0) = 1200) := by
  refine ⟨fun t n => rfl, fun t n => ⟨?_, ?_⟩, fun t => ?_, ⟨by decide, by decide⟩,
    ⟨by decide, by decide⟩⟩
  · exact Int.emod_nonneg _ (by norm_num)
  · exact Int.emod_lt_of_pos _ (by norm_num)
  · simp [schedule_delay]

/-- Counterexample to C1 as stated: a completed run over one profile of
two items yields two item outcomes but appends exactly one persisted
log line, of the form `<timestamp> - Launching profile: <name>` — not
two lines of the form `<name> - <message>`. -/
theorem sequencer_log_per_item_refuted :
    (_threaded_launch cxProfiles ["P"] true (fun _ => okWorld) cxTs).itemMsgs.length = 2 ∧
    (_threaded_launch cxProfiles ["P"] true (fun _ => okWorld) cxTs).logLines =
      ["2025-01-01 00:00:00 - Launching profile: P"] ∧
    (_threaded_launch cxProfiles ["P"] true (fun _ => okWorld) cxTs).logLines.length ≠ 2 :=
  ⟨by decide, by decide, by decide⟩

/-- Claim C1 (amended): for every completed Sequencer run the persisted
log gains exactly one line per profile, in input order, each of the
form `<timestamp> - Launching profile: <profile-name>`; the per-item
outcome messages returned by the Item Launcher are produced one per
item, in input order (they go to the in-memory status area, not to the
persisted log), so a run over N items yields exactly N outcome
messages. -/
theorem sequencer_log_spec (profiles : List (String × List Item)) (names : List String)
    (avoid : Bool) (worlds : Nat → World) (ts : Nat → String)
    (h : allOk avoid worlds 0 (allItems profiles names) = true) :
    (_threaded_launch profiles names avoid worlds ts).logLines =
      renderLog ts (names.map (fun n => "Launching profile: " ++ n)) ∧
    (_threaded_launch profiles names avoid worlds ts).itemMsgs =
      okMsgs avoid worlds 0 (allItems profiles names) ∧
    (_threaded_launch profiles names avoid worlds ts).itemMsgs.length =
      totalItems profiles names := by
  have hrun := stepProfiles_eq profiles avoid worlds names ⟨0, 0, [0], [], [], [], none⟩ rfl h
  refine ⟨?_, ?_, ?_⟩ <;>
    simp [_threaded_launch, hrun, okMsgs_length, allItems_length]

/-- Witness for C1 (amended): the two-URL-item run appends one rendered
profile line and produces the two outcome messages in order. -/
theorem sequencer_log_spec_witness :
    allOk true (fun _ => okWorld) 0 (allItems cxProfiles ["P"]) = true ∧
    (_threaded_launch cxProfiles ["P"] true (fun _ => okWorld) cxTs).logLines =
      renderLog cxTs (["P"].map (fun n => "Launching profile: " ++ n)) ∧
    (_threaded_launch cxProfiles ["P"] true (fun _ => okWorld) cxTs).itemMsgs =
      okMsgs true (fun _ => okWorld) 0 (allItems cxProfiles ["P"]) :=
  ⟨by decide, (sequencer_log_spec cxProfiles ["P"] true (fun _ => okWorld) cxTs (by decide)).1,
    (sequencer_log_spec cxProfiles ["P"] true (fun _ => okWorld) cxTs (by decide)).2.1⟩

/-- Claim C4: the progress counter starts at 0 with maximum the total
item count over the named profiles (minimum 1 when that count is 0),
and over a completed run its successive values are exactly 0, 1, ..., N
— monotonically increasing in steps of 1 with no skipped or repeated
values. -/
theorem progress_counter_spec (profiles : List (String × List Item)) (names : List String)
    (avoid : Bool) (worlds : Nat → World) (ts : Nat → String)
    (h : allOk avoid worlds 0 (allItems profiles names) = true) :
    (_threaded_launch profiles names avoid worlds ts).progressMax =
      (if totalItems profiles names = 0 then 1 else totalItems profiles names) ∧
    (_threaded_launch profiles names avoid worlds ts).progressTrace =
      List.range (totalItems profiles names + 1) := by
  have hrun := stepProfiles_eq profiles avoid worlds names ⟨0, 0, [0], [], [], [], none⟩ rfl h
  constructor
  · simp [_threaded_launch]
  · simp only [_threaded_launch, hrun]
    rw [← zero_cons_upFrom]
    simp

/-- Witness for C4: the two-item run has maximum 2 and progress trace
`[0, 1, 2]`. -/
theorem progress_counter_spec_witness :
    allOk true (fun _ => okWorld) 0 (allItems cxProfiles ["P"]) = true ∧
    (_threaded_launch cxProfiles ["P"] true (fun _ => okWorld) cxTs).progressMax =
      (if totalItems cxProfiles ["P"] = 0 then 1 else totalItems cxProfiles ["P"]) ∧
    (_threaded_launch cxProfiles ["P"] true (fun _ => okWorld) cxTs).progressTrace =
      List.range (totalItems cxProfiles ["P"] + 1) :=
  ⟨by decide, (progress_counter_spec cxProfiles ["P"] true (fun _ => okWorld) cxTs (by decide)).1,
    (progress_counter_spec cxProfiles ["P"] true (fun _ => okWorld) cxTs (by decide)).2⟩

end AutoLauncher
